import Mathlib

/-!
Verification of the solitary sandbox library (src/solitary): a shallow
embedding of the result model (models.py), the configuration (config.py),
the error taxonomy (exceptions.py) and the execution session (sandbox.py),
with the Docker runtime and the local filesystem modelled as oracles, and
theorems checking the specification's claims against the embedded code.
-/

namespace Solitary

/-- A single-quote character, used to build Python source strings. -/
def sq : String := String.singleton (Char.ofNat 39)

/-! ## Result model (models.py) -/

/-- Type of execution result (`ResultType` in models.py): OUTPUT or ERROR. -/
inductive ResultType
  | OUTPUT
  | ERROR
deriving DecidableEq, Repr

/-- Structured return value (`ResultValue` in models.py). -/
structure ResultValue where
  type : ResultType
  content : String
deriving DecidableEq, Repr

/-- Result of code execution (`ExecutionResult` in models.py).
Wall-clock durations are embedded as rationals. -/
structure ExecutionResult where
  stdout : String
  stderr : String
  exit_code : Int
  execution_time : ℚ
  timeout_occurred : Bool
  container_id : String
  command : String
deriving DecidableEq, Repr

/-- Derived property `ExecutionResult.success`:
`self.exit_code == 0 and not self.timeout_occurred`. -/
def ExecutionResult.success (r : ExecutionResult) : Bool :=
  r.exit_code == 0 && !r.timeout_occurred

/-- Derived property `ExecutionResult.return_value`, translated clause by
clause from models.py: stdout on success, else stderr when non-empty, else a
generic failure message, else empty OUTPUT.  Python truthiness of a string is
non-emptiness. -/
def ExecutionResult.return_value (r : ExecutionResult) : ResultValue :=
  if r.success = true ∧ r.stdout ≠ "" then
    { type := ResultType.OUTPUT, content := r.stdout }
  else if r.stderr ≠ "" then
    { type := ResultType.ERROR, content := r.stderr }
  else if ¬ r.success = true then
    { type := ResultType.ERROR,
      content := "Command failed with exit code " ++ toString r.exit_code }
  else
    { type := ResultType.OUTPUT, content := "" }

/-- Classification written from the specification's words (section 3 of the
spec): success iff `exit_code == 0 AND NOT timeout_occurred`, then the
four-way precedence on (success, stdout, stderr).  Kept separate from
`ExecutionResult.return_value` so the two can be compared. -/
def return_value_spec (r : ExecutionResult) : ResultValue :=
  if (r.exit_code = 0 ∧ r.timeout_occurred = false) ∧ r.stdout ≠ "" then
    { type := ResultType.OUTPUT, content := r.stdout }
  else if r.stderr ≠ "" then
    { type := ResultType.ERROR, content := r.stderr }
  else if ¬ (r.exit_code = 0 ∧ r.timeout_occurred = false) then
    { type := ResultType.ERROR,
      content := "Command failed with exit code " ++ toString r.exit_code }
  else
    { type := ResultType.OUTPUT, content := "" }

/-! ## Configuration (config.py) -/

/-- Configuration for the sandbox (`SandboxConfig` in config.py). -/
structure SandboxConfig where
  container : String
  workdir : String
  timeout : Int
  shell : String
deriving DecidableEq, Repr

/-- Default value of `SandboxConfig.workdir`. -/
def workdir_default : String := "/workspace"

/-- Default value of `SandboxConfig.timeout`. -/
def timeout_default : Int := 30

/-- Default value of `SandboxConfig.shell`. -/
def shell_default : String := "/bin/bash"

/-- Construction of a `SandboxConfig`, embedding the pydantic field
validators declared in config.py: `timeout` carries `ge=1, le=3600`, the
string fields accept any string.  Construction fails (pydantic raises a
ValidationError) exactly when a validator rejects. -/
def mk_sandbox_config (container workdir : String) (timeout : Int)
    (shell : String) : Except String SandboxConfig :=
  if 1 ≤ timeout ∧ timeout ≤ 3600 then
    Except.ok { container := container, workdir := workdir,
                timeout := timeout, shell := shell }
  else
    Except.error "validation error: timeout out of range"

/-- Pydantic model options (`class Config` in config.py). -/
structure ModelConfig where
  frozen : Bool
  validate_assignment : Bool
deriving DecidableEq, Repr

/-- The model options declared on `SandboxConfig` in config.py:
`frozen = True` and `validate_assignment = True`. -/
def SandboxConfig.model_config : ModelConfig :=
  { frozen := true, validate_assignment := true }

/-- Fields of `SandboxConfig` a caller may try to assign to. -/
inductive ConfigField
  | container
  | workdir
  | timeout
  | shell
deriving DecidableEq, Repr

/-- A value a caller may try to assign to a field. -/
inductive FieldValue
  | str (s : String)
  | int (i : Int)
deriving DecidableEq, Repr

/-- Attribute assignment on a pydantic model, embedding pydantic's documented
semantics for the options used in config.py: on a model with `frozen = True`
every assignment raises (a TypeError) and the instance is left unchanged;
otherwise, with `validate_assignment`, the new value is validated with the
field's validators before being applied. -/
def pydantic_setattr (mc : ModelConfig) (c : SandboxConfig) (f : ConfigField)
    (v : FieldValue) : Except String SandboxConfig :=
  if mc.frozen then Except.error "Instance is frozen"
  else
    match f, v with
    | ConfigField.container, FieldValue.str s => Except.ok { c with container := s }
    | ConfigField.workdir, FieldValue.str s => Except.ok { c with workdir := s }
    | ConfigField.shell, FieldValue.str s => Except.ok { c with shell := s }
    | ConfigField.timeout, FieldValue.int i =>
        if mc.validate_assignment ∧ ¬ (1 ≤ i ∧ i ≤ 3600) then
          Except.error "validation error: timeout out of range"
        else Except.ok { c with timeout := i }
    | _, _ => Except.error "validation error: wrong type"

/-! ## Error taxonomy (exceptions.py)

Only the two errors connect raises are reachable from the embedded
operations; ExecutionTimeoutError is declared in exceptions.py but never
raised anywhere in the code. -/

/-- Exceptions raised by the session (exceptions.py):
`ContainerNotFoundError` and `ContainerConnectionError`. -/
inductive SandboxError
  | containerNotFound (msg : String)
  | containerConnection (msg : String)
deriving DecidableEq, Repr

/-! ## Docker runtime oracle (section 6 of the spec)

The docker library is the external collaborator: it is embedded as a record
of oracles giving the outcome of each runtime call the session makes.  A
client handle is an opaque token; a container handle is identified by its id
string (`container.id` is the only attribute the execute family reads). -/

/-- Opaque docker client handle (`docker.DockerClient`). -/
abbrev Client := Nat

/-- Container handle, carrying its id string (`container.id`). -/
abbrev Container := String

/-- Outcome of `client.containers.get(name)`: a handle, `NotFound`,
or `APIError`. -/
inductive GetContainerOutcome
  | found (c : Container)
  | notFound
  | apiError (msg : String)
deriving DecidableEq, Repr

/-- True when `client.containers.get` raises rather than returning
a handle. -/
def GetContainerOutcome.fails : GetContainerOutcome → Bool
  | GetContainerOutcome.found _ => false
  | GetContainerOutcome.notFound => true
  | GetContainerOutcome.apiError _ => true

/-- Outcome of `container.exec_run(cmd, workdir=..., ...)`: either a raised
transport exception with its message, or a returned exit code with the two
demuxed byte streams (None for a missing stream).  Both carry the wall-clock
time that elapsed during the call, read by the surrounding
`time.time()` pair. -/
inductive DispatchOutcome
  | raises (msg : String) (elapsed : ℚ)
  | returns (exit_code : Int) (stdout_bytes stderr_bytes : Option String)
      (elapsed : ℚ)
deriving DecidableEq, Repr

/-- Elapsed wall-clock time of a dispatch, whether it raised or returned. -/
def DispatchOutcome.elapsed : DispatchOutcome → ℚ
  | DispatchOutcome.raises _ e => e
  | DispatchOutcome.returns _ _ _ e => e

/-- The docker runtime, as the oracles for the three calls the session
issues: `docker.from_env()`, `client.containers.get(name)`, and
`container.exec_run(cmd, workdir=...)`. -/
structure DockerEnv where
  from_env : Except String Client
  containers_get : Client → String → GetContainerOutcome
  exec_run : Container → List String → String → DispatchOutcome

/-- Runtime calls issued by an operation, recorded so that claims about
which calls are (not) made can be stated. -/
inductive RuntimeEvent
  | fromEnvCall
  | getContainerCall (name : String)
  | execRunCall (cmd : List String) (workdir : String)
deriving DecidableEq, Repr

/-! ## Execution session (sandbox.py) -/

/-- Mutable connection state of a `Sandbox` instance: the private fields
`_client` and `_container`, both `None` initially. -/
structure SandboxState where
  client : Option Client
  container : Option Container
deriving DecidableEq, Repr

/-- The initial (unconnected) state of a session. -/
def SandboxState.unconnected : SandboxState :=
  { client := none, container := none }

/-- Second half of `Sandbox._connect`: with the client in hand, resolve the
container if `self._container is None`.  `NotFound` becomes
ContainerNotFoundError, `APIError` becomes ContainerConnectionError; in both
cases the already-assigned client field is kept. -/
def Sandbox.resolve_container (env : DockerEnv) (cfg : SandboxConfig)
    (s : SandboxState) (c : Client) (evs : List RuntimeEvent) :
    SandboxState × Option SandboxError × List RuntimeEvent :=
  match s.container with
  | some _ => (s, none, evs)
  | none =>
    match env.containers_get c cfg.container with
    | GetContainerOutcome.found ct =>
        ({ s with container := some ct }, none,
         evs ++ [RuntimeEvent.getContainerCall cfg.container])
    | GetContainerOutcome.notFound =>
        (s, some (SandboxError.containerNotFound
              ("Container " ++ sq ++ cfg.container ++ sq ++ " not found")),
         evs ++ [RuntimeEvent.getContainerCall cfg.container])
    | GetContainerOutcome.apiError msg =>
        (s, some (SandboxError.containerConnection
              ("Failed to access container: " ++ msg)),
         evs ++ [RuntimeEvent.getContainerCall cfg.container])

/-- `Sandbox._connect`: acquire the docker client if `self._client is None`
(raising ContainerConnectionError on failure), then resolve the container.
A raised error is returned alongside the state reached so far, since in the
source the field assignments made before the raise persist. -/
def Sandbox.connect (env : DockerEnv) (cfg : SandboxConfig)
    (s : SandboxState) :
    SandboxState × Option SandboxError × List RuntimeEvent :=
  match s.client with
  | some c => Sandbox.resolve_container env cfg s c []
  | none =>
    match env.from_env with
    | Except.error msg =>
        (s, some (SandboxError.containerConnection
              ("Failed to connect to Docker: " ++ msg)),
         [RuntimeEvent.fromEnvCall])
    | Except.ok c =>
        Sandbox.resolve_container env cfg { s with client := some c } c
          [RuntimeEvent.fromEnvCall]

/-- Python `x or default` on an optional string argument: `None` and the
empty string are falsy and fall back to the default. -/
def pyOrStr (override : Option String) (default : String) : String :=
  match override with
  | none => default
  | some s => if s = "" then default else s

/-- Python `x or default` on an optional int argument: `None` and `0` are
falsy and fall back to the default. -/
def pyOrInt (override : Option Int) (default : Int) : Int :=
  match override with
  | none => default
  | some t => if t = 0 then default else t

/-- The body shared verbatim by `Sandbox.execute` and
`Sandbox.execute_shell` in sandbox.py: `self._connect()`, then dispatch
`cmd` through `container.exec_run` inside try/except.  On a raised transport
exception it builds the recovery result (`exit_code = -1`, the exception
message as stderr, `timeout_occurred` still holding its pre-try value
False); on return it decodes the demuxed streams (falsy byte streams decode
to "") and sets `timeout_occurred` iff the measured time exceeds the
effective timeout.  A connect failure propagates (it is outside the try). -/
def Sandbox.dispatch (env : DockerEnv) (cfg : SandboxConfig)
    (s : SandboxState) (cmd : List String) (execution_workdir : String)
    (execution_timeout : Int) :
    SandboxState × Except SandboxError ExecutionResult × List RuntimeEvent :=
  match Sandbox.connect env cfg s with
  | (s1, some e, evs) => (s1, Except.error e, evs)
  | (s1, none, evs) =>
    match s1.container with
    | none =>
        (s1, Except.error (SandboxError.containerConnection
              "no container handle"), evs)
    | some ct =>
      match env.exec_run ct cmd execution_workdir with
      | DispatchOutcome.raises msg elapsed =>
          (s1, Except.ok
            { stdout := "", stderr := msg, exit_code := -1,
              execution_time := elapsed, timeout_occurred := false,
              container_id := ct,
              command := String.intercalate " " cmd },
           evs ++ [RuntimeEvent.execRunCall cmd execution_workdir])
      | DispatchOutcome.returns ec sb eb elapsed =>
          (s1, Except.ok
            { stdout := sb.getD "", stderr := eb.getD "", exit_code := ec,
              execution_time := elapsed,
              timeout_occurred := decide (elapsed > (execution_timeout : ℚ)),
              container_id := ct,
              command := String.intercalate " " cmd },
           evs ++ [RuntimeEvent.execRunCall cmd execution_workdir])

/-- `Sandbox.execute(code, stdin, workdir, timeout)`: run
`python3 -c code` with the effective workdir and timeout (per-call value
`or` the session configuration).  The `stdin` parameter is accepted and
never used by the body. -/
def Sandbox.execute (env : DockerEnv) (cfg : SandboxConfig)
    (s : SandboxState) (code : String) (stdin : Option String)
    (workdir : Option String) (timeout : Option Int) :
    SandboxState × Except SandboxError ExecutionResult × List RuntimeEvent :=
  Sandbox.dispatch env cfg s ["python3", "-c", code]
    (pyOrStr workdir cfg.workdir) (pyOrInt timeout cfg.timeout)

/-- `Sandbox.execute_shell(command, workdir, timeout, shell)`: run
`shell -c command` under the effective shell, workdir and timeout. -/
def Sandbox.execute_shell (env : DockerEnv) (cfg : SandboxConfig)
    (s : SandboxState) (command : String) (workdir : Option String)
    (timeout : Option Int) (shell : Option String) :
    SandboxState × Except SandboxError ExecutionResult × List RuntimeEvent :=
  Sandbox.dispatch env cfg s [pyOrStr shell cfg.shell, "-c", command]
    (pyOrStr workdir cfg.workdir) (pyOrInt timeout cfg.timeout)

/-- The local filesystem oracle for `open(filepath).read()`: the file's
text content, or `none` when opening raises FileNotFoundError. -/
abbrev LocalFiles := String → Option String

/-- `Sandbox.execute_file(filepath, args, workdir, timeout)`: read the local
file and delegate to `Sandbox.execute` with its contents.  On
FileNotFoundError it returns the local failure result without touching the
runtime.  The `args` parameter is accepted and never used by the body. -/
def Sandbox.execute_file (env : DockerEnv) (files : LocalFiles)
    (cfg : SandboxConfig) (s : SandboxState) (filepath : String)
    (args : Option (List String)) (workdir : Option String)
    (timeout : Option Int) :
    SandboxState × Except SandboxError ExecutionResult × List RuntimeEvent :=
  match files filepath with
  | none =>
      (s, Except.ok
        { stdout := "", stderr := "File not found: " ++ filepath,
          exit_code := 1, execution_time := 0, timeout_occurred := false,
          container_id := s.container.getD "",
          command := "python3 " ++ filepath },
       [])
  | some code => Sandbox.execute env cfg s code none workdir timeout

/-- Python's `needle in haystack` on strings: substring containment. -/
def str_contains (haystack needle : String) : Bool :=
  decide (List.IsInfix needle.toList haystack.toList)

/-- The fixed probe Python source used by `Sandbox.is_healthy`. -/
def health_probe : String :=
  "print(" ++ sq ++ "health_check" ++ sq ++ ")"

/-- `Sandbox.is_healthy()`: connect, run the fixed probe with
`timeout=5`, and report whether the result is successful with the marker
`health_check` in its stdout; every exception on the way is swallowed into
`False`. -/
def Sandbox.is_healthy (env : DockerEnv) (cfg : SandboxConfig)
    (s : SandboxState) : SandboxState × Bool × List RuntimeEvent :=
  match Sandbox.connect env cfg s with
  | (s1, some _, evs) => (s1, false, evs)
  | (s1, none, evs) =>
    match Sandbox.execute env cfg s1 health_probe none none (some 5) with
    | (s2, Except.error _, evs2) => (s2, false, evs ++ evs2)
    | (s2, Except.ok r, evs2) =>
        (s2, r.success && str_contains r.stdout "health_check",
         evs ++ evs2)

/-- The probe execution's result inside `Sandbox.is_healthy`, or `none` when
connect raised (so the probe never produced a result). -/
def Sandbox.probe_result (env : DockerEnv) (cfg : SandboxConfig)
    (s : SandboxState) : Option ExecutionResult :=
  match Sandbox.connect env cfg s with
  | (_, some _, _) => none
  | (s1, none, _) =>
    match (Sandbox.execute env cfg s1 health_probe none none (some 5)).2.1 with
    | Except.error _ => none
    | Except.ok r => some r

/-! ## Helper lemmas about connect -/

/-- A successful resolve leaves a container handle in the state. -/
lemma resolve_ok_container (env : DockerEnv) (cfg : SandboxConfig)
    (s : SandboxState) (c : Client) (evs : List RuntimeEvent)
    (h : (Sandbox.resolve_container env cfg s c evs).2.1 = none) :
    ∃ ct, (Sandbox.resolve_container env cfg s c evs).1.container = some ct := by
  unfold Sandbox.resolve_container at h ⊢
  cases hct : s.container with
  | some ct => exact ⟨ct, by simp [hct]⟩
  | none =>
    cases hg : env.containers_get c cfg.container with
    | found ct => exact ⟨ct, by simp [hct, hg]⟩
    | notFound => simp [hct, hg] at h
    | apiError msg => simp [hct, hg] at h

/-- A successful connect leaves a container handle in the state. -/
lemma connect_ok_container (env : DockerEnv) (cfg : SandboxConfig)
    (s : SandboxState)
    (h : (Sandbox.connect env cfg s).2.1 = none) :
    ∃ ct, (Sandbox.connect env cfg s).1.container = some ct := by
  unfold Sandbox.connect at h ⊢
  cases hc : s.client with
  | some c =>
    rw [hc] at h
    exact resolve_ok_container env cfg s c [] h
  | none =>
    rw [hc] at h
    cases he : env.from_env with
    | error msg => rw [he] at h; simp at h
    | ok c =>
      rw [he] at h
      exact resolve_ok_container env cfg _ c [RuntimeEvent.fromEnvCall] h

/-! ## Concrete test fixtures -/

/-- A concrete configuration with the default workdir, timeout and shell. -/
def cfgStd : SandboxConfig :=
  { container := "box", workdir := "/workspace", timeout := 30,
    shell := "/bin/bash" }

/-- A runtime in which everything succeeds: the probe-style dispatch
returns exit code 0 with stdout after 2 seconds. -/
def envOk : DockerEnv :=
  { from_env := Except.ok 0,
    containers_get := fun _ _ => GetContainerOutcome.found "cid",
    exec_run := fun _ _ _ =>
      DispatchOutcome.returns 0 (some "health_check\n") none 2 }

/-- A runtime whose dispatch raises a transport exception after
2 seconds. -/
def envRaise : DockerEnv :=
  { from_env := Except.ok 0,
    containers_get := fun _ _ => GetContainerOutcome.found "cid",
    exec_run := fun _ _ _ => DispatchOutcome.raises "boom" 2 }

/-- A runtime whose dispatch raises a transport exception only after
100 seconds — far beyond the default 30-second timeout. -/
def envRaiseLate : DockerEnv :=
  { from_env := Except.ok 0,
    containers_get := fun _ _ => GetContainerOutcome.found "cid",
    exec_run := fun _ _ _ => DispatchOutcome.raises "socket timeout" 100 }

/-- A runtime in which the client is acquired but the named container does
not exist. -/
def envNoContainer : DockerEnv :=
  { from_env := Except.ok 0,
    containers_get := fun _ _ => GetContainerOutcome.notFound,
    exec_run := fun _ _ _ => DispatchOutcome.returns 0 none none 0 }

/-! ## Claim theorems -/

/-- C1: for every ExecutionResult, the derived `success` is
`exit_code == 0 AND timeout_occurred == false`, and the derived
`return_value` agrees with the specification's four-way precedence
(stdout-on-success, then stderr even on failure, then the generic
failure message, then empty OUTPUT). -/
theorem result_classification_matches_spec (r : ExecutionResult) :
    (r.success = true ↔ (r.exit_code = 0 ∧ r.timeout_occurred = false))
    ∧ r.return_value = return_value_spec r := by
  have hs : r.success = true ↔ (r.exit_code = 0 ∧ r.timeout_occurred = false) := by
    simp [ExecutionResult.success, Bool.not_eq_true']
  refine ⟨hs, ?_⟩
  unfold ExecutionResult.return_value return_value_spec
  by_cases h1 : r.exit_code = 0 ∧ r.timeout_occurred = false
  · simp only [hs.2 h1, h1]
    simp
  · have hf : ¬ r.success = true := fun hsucc => h1 (hs.1 hsucc)
    simp only [eq_false hf, h1]

/-- C5: configuration construction fails with a validation error exactly
when `timeout` lies outside [1, 3600]; in particular 0 and 3601 are
rejected, 1 and 3600 are accepted, and the defaults give `timeout = 30`. -/
theorem config_timeout_validation (c w sh : String) :
    (∀ t : Int,
      mk_sandbox_config c w t sh
          = Except.error "validation error: timeout out of range"
        ↔ ¬ (1 ≤ t ∧ t ≤ 3600))
    ∧ mk_sandbox_config c w 0 sh
        = Except.error "validation error: timeout out of range"
    ∧ mk_sandbox_config c w 3601 sh
        = Except.error "validation error: timeout out of range"
    ∧ mk_sandbox_config c w 1 sh
        = Except.ok { container := c, workdir := w, timeout := 1, shell := sh }
    ∧ mk_sandbox_config c w 3600 sh
        = Except.ok { container := c, workdir := w, timeout := 3600, shell := sh }
    ∧ mk_sandbox_config c workdir_default timeout_default shell_default
        = Except.ok { container := c, workdir := "/workspace", timeout := 30,
                      shell := "/bin/bash" } := by
  refine ⟨?_, ?_, ?_, ?_, ?_, ?_⟩
  · intro t
    unfold mk_sandbox_config
    split_ifs with h
    · simp [h]
    · simp [h]
  all_goals norm_num [mk_sandbox_config, workdir_default, timeout_default,
    shell_default]

/-- C6: on the frozen `SandboxConfig` model (its declared model options have
`frozen = True`), every attempted field assignment fails, and no updated
configuration is ever produced — in this pure embedding the caller's
configuration value is therefore unchanged by the attempt. -/
theorem config_frozen_rejects_assignment (c : SandboxConfig)
    (f : ConfigField) (v : FieldValue) :
    pydantic_setattr SandboxConfig.model_config c f v
        = Except.error "Instance is frozen"
    ∧ ∀ c' : SandboxConfig,
        pydantic_setattr SandboxConfig.model_config c f v ≠ Except.ok c' := by
  refine ⟨?_, ?_⟩
  · simp [pydantic_setattr, SandboxConfig.model_config]
  · intro c'
    simp [pydantic_setattr, SandboxConfig.model_config]

/-- C8: the `args` parameter of `execute_file` has no effect: with any args
list, the final state, the result, and the issued runtime calls (hence the
dispatched command) are identical to the call with `args = None`. -/
theorem execute_file_ignores_args (env : DockerEnv) (files : LocalFiles)
    (cfg : SandboxConfig) (s : SandboxState) (filepath : String)
    (a : List String) (w : Option String) (t : Option Int) :
    Sandbox.execute_file env files cfg s filepath (some a) w t
      = Sandbox.execute_file env files cfg s filepath none w t := rfl

/-- C10: a falsy per-call override is treated as absent: `workdir = ""`,
`timeout = 0` and `shell = ""` each make `execute` / `execute_shell` fall
back to the session configuration's value, exactly as passing `None`. -/
theorem falsy_overrides_fall_back (env : DockerEnv) (cfg : SandboxConfig)
    (s : SandboxState) (code command : String) (stdin : Option String)
    (w : Option String) (t : Option Int) (sh : Option String) :
    Sandbox.execute env cfg s code stdin (some "") t
        = Sandbox.execute env cfg s code stdin none t
    ∧ Sandbox.execute env cfg s code stdin w (some 0)
        = Sandbox.execute env cfg s code stdin w none
    ∧ Sandbox.execute_shell env cfg s command (some "") t sh
        = Sandbox.execute_shell env cfg s command none t sh
    ∧ Sandbox.execute_shell env cfg s command w (some 0) sh
        = Sandbox.execute_shell env cfg s command w none sh
    ∧ Sandbox.execute_shell env cfg s command w t (some "")
        = Sandbox.execute_shell env cfg s command w t none := by
  refine ⟨?_, ?_, ?_, ?_, ?_⟩ <;>
    simp [Sandbox.execute, Sandbox.execute_shell, pyOrStr, pyOrInt]

/-- C2: when the runtime dispatch raises, `execute` and `execute_shell`
do not propagate the exception: they return (as a value, not an error) an
ExecutionResult with `exit_code = -1`, the exception's message as stderr,
empty stdout, and the elapsed time measured up to the failure point. -/
theorem execute_recovers_transport_failure
    (env : DockerEnv) (cfg : SandboxConfig) (s : SandboxState)
    (code command : String) (stdin : Option String) (w : Option String)
    (t : Option Int) (sh : Option String) (ct : Container)
    (msg msg2 : String) (elapsed elapsed2 : ℚ)
    (hconn : (Sandbox.connect env cfg s).2.1 = none)
    (hct : (Sandbox.connect env cfg s).1.container = some ct)
    (hdx : env.exec_run ct ["python3", "-c", code] (pyOrStr w cfg.workdir)
        = DispatchOutcome.raises msg elapsed)
    (hdsh : env.exec_run ct [pyOrStr sh cfg.shell, "-c", command]
          (pyOrStr w cfg.workdir)
        = DispatchOutcome.raises msg2 elapsed2) :
    (Sandbox.execute env cfg s code stdin w t).2.1
        = Except.ok { stdout := "", stderr := msg, exit_code := -1,
                      execution_time := elapsed, timeout_occurred := false,
                      container_id := ct,
                      command := String.intercalate " "
                        ["python3", "-c", code] }
    ∧ (Sandbox.execute_shell env cfg s command w t sh).2.1
        = Except.ok { stdout := "", stderr := msg2, exit_code := -1,
                      execution_time := elapsed2, timeout_occurred := false,
                      container_id := ct,
                      command := String.intercalate " "
                        [pyOrStr sh cfg.shell, "-c", command] } := by
  rcases hC : Sandbox.connect env cfg s with ⟨s1, e, evs⟩
  rw [hC] at hconn hct
  simp only at hconn hct
  subst hconn
  refine ⟨?_, ?_⟩ <;>
    simp [Sandbox.execute, Sandbox.execute_shell, Sandbox.dispatch, hC,
      hct, hdx, hdsh]

/-- C2 witness: a concrete raising runtime, with the hypotheses discharged
by computation. -/
theorem execute_recovers_transport_failure_witness :
    (Sandbox.connect envRaise cfgStd SandboxState.unconnected).2.1 = none
    ∧ (Sandbox.connect envRaise cfgStd
        SandboxState.unconnected).1.container = some "cid"
    ∧ envRaise.exec_run "cid" ["python3", "-c", "1/0"]
          (pyOrStr none cfgStd.workdir)
        = DispatchOutcome.raises "boom" 2
    ∧ envRaise.exec_run "cid" [pyOrStr none cfgStd.shell, "-c", "ls"]
          (pyOrStr none cfgStd.workdir)
        = DispatchOutcome.raises "boom" 2
    ∧ (Sandbox.execute envRaise cfgStd SandboxState.unconnected "1/0"
          none none none).2.1
        = Except.ok { stdout := "", stderr := "boom", exit_code := -1,
                      execution_time := 2, timeout_occurred := false,
                      container_id := "cid",
                      command := String.intercalate " "
                        ["python3", "-c", "1/0"] }
    ∧ (Sandbox.execute_shell envRaise cfgStd SandboxState.unconnected "ls"
          none none none).2.1
        = Except.ok { stdout := "", stderr := "boom", exit_code := -1,
                      execution_time := 2, timeout_occurred := false,
                      container_id := "cid",
                      command := String.intercalate " "
                        [pyOrStr none cfgStd.shell, "-c", "ls"] } := by
  have h := execute_recovers_transport_failure envRaise cfgStd
    SandboxState.unconnected "1/0" "ls" none none none none "cid"
    "boom" "boom" 2 2 rfl rfl rfl rfl
  exact ⟨rfl, rfl, rfl, rfl, h.1, h.2⟩

/-- Value the timeout flag takes as a function of the dispatch outcome, as
the code computes it: on a returned dispatch it is set iff the measured
elapsed time exceeds the effective timeout; on a raised dispatch it keeps
its pre-try value False. -/
def timeout_flag_spec : DispatchOutcome → Int → Bool
  | DispatchOutcome.raises _ _, _ => false
  | DispatchOutcome.returns _ _ _ elapsed, tmo =>
      decide (elapsed > (tmo : ℚ))

/-- C3 amended: for `execute` and `execute_shell`, `execution_time` is the
elapsed time of the dispatch, and `timeout_occurred` is true iff the
elapsed time exceeds the effective timeout WHEN the dispatch returned; on
the dispatch-exception path it is always false, regardless of the elapsed
time. -/
theorem timeout_flag_follows_dispatch
    (env : DockerEnv) (cfg : SandboxConfig) (s : SandboxState)
    (code command : String) (stdin : Option String) (w : Option String)
    (t : Option Int) (sh : Option String) (ct : Container)
    (hconn : (Sandbox.connect env cfg s).2.1 = none)
    (hct : (Sandbox.connect env cfg s).1.container = some ct) :
    ((Sandbox.execute env cfg s code stdin w t).2.1.toOption.map
        (fun r => (r.timeout_occurred, r.execution_time)))
      = some
          (timeout_flag_spec
             (env.exec_run ct ["python3", "-c", code]
               (pyOrStr w cfg.workdir))
             (pyOrInt t cfg.timeout),
           (env.exec_run ct ["python3", "-c", code]
             (pyOrStr w cfg.workdir)).elapsed)
    ∧ ((Sandbox.execute_shell env cfg s command w t sh).2.1.toOption.map
        (fun r => (r.timeout_occurred, r.execution_time)))
      = some
          (timeout_flag_spec
             (env.exec_run ct [pyOrStr sh cfg.shell, "-c", command]
               (pyOrStr w cfg.workdir))
             (pyOrInt t cfg.timeout),
           (env.exec_run ct [pyOrStr sh cfg.shell, "-c", command]
             (pyOrStr w cfg.workdir)).elapsed) := by
  rcases hC : Sandbox.connect env cfg s with ⟨s1, e, evs⟩
  rw [hC] at hconn hct
  simp only at hconn hct
  subst hconn
  constructor
  · cases hdx : env.exec_run ct ["python3", "-c", code]
      (pyOrStr w cfg.workdir) <;>
      simp [Sandbox.execute, Sandbox.dispatch, hC, hct, hdx,
        timeout_flag_spec, DispatchOutcome.elapsed, Except.toOption]
  · cases hdx : env.exec_run ct [pyOrStr sh cfg.shell, "-c", command]
      (pyOrStr w cfg.workdir) <;>
      simp [Sandbox.execute_shell, Sandbox.dispatch, hC, hct, hdx,
        timeout_flag_spec, DispatchOutcome.elapsed, Except.toOption]

/-- C3 amended witness: a concrete successful dispatch taking 2 seconds
against the default 30-second timeout. -/
theorem timeout_flag_follows_dispatch_witness :
    (Sandbox.connect envOk cfgStd SandboxState.unconnected).2.1 = none
    ∧ (Sandbox.connect envOk cfgStd
        SandboxState.unconnected).1.container = some "cid"
    ∧ ((Sandbox.execute envOk cfgStd SandboxState.unconnected "x"
          none none none).2.1.toOption.map
        (fun r => (r.timeout_occurred, r.execution_time)))
      = some
          (timeout_flag_spec
             (envOk.exec_run "cid" ["python3", "-c", "x"]
               (pyOrStr none cfgStd.workdir))
             (pyOrInt none cfgStd.timeout),
           (envOk.exec_run "cid" ["python3", "-c", "x"]
             (pyOrStr none cfgStd.workdir)).elapsed) := by
  have h := timeout_flag_follows_dispatch envOk cfgStd
    SandboxState.unconnected "x" "ls" none none none none "cid" rfl rfl
  exact ⟨rfl, rfl, h.1⟩

/-- C3 counterexample: with a dispatch that raises after 100 seconds under
the default 30-second timeout, the returned result has
`execution_time = 100`, which exceeds the effective timeout, yet
`timeout_occurred = false` — refuting the claimed iff on the
transport-exception path. -/
theorem timeout_iff_counterexample :
    (Sandbox.execute envRaiseLate cfgStd SandboxState.unconnected "x"
        none none none).2.1
      = Except.ok { stdout := "", stderr := "socket timeout",
                    exit_code := -1, execution_time := 100,
                    timeout_occurred := false, container_id := "cid",
                    command := "python3 -c x" }
    ∧ (100 : ℚ) > ((pyOrInt none cfgStd.timeout : Int) : ℚ) := by
  constructor
  · rfl
  · norm_num [pyOrInt, cfgStd]

/-- C4: when the local file cannot be found, `execute_file` returns
`exit_code = 1`, `stderr = "File not found: {filepath}"`,
`execution_time = 0.0`, the state is untouched, and no runtime call at all
is issued (the recorded call list is empty). -/
theorem execute_file_missing_file (env : DockerEnv) (files : LocalFiles)
    (cfg : SandboxConfig) (s : SandboxState) (filepath : String)
    (args : Option (List String)) (w : Option String) (t : Option Int)
    (h : files filepath = none) :
    Sandbox.execute_file env files cfg s filepath args w t
      = (s, Except.ok
          { stdout := "", stderr := "File not found: " ++ filepath,
            exit_code := 1, execution_time := 0, timeout_occurred := false,
            container_id := s.container.getD "",
            command := "python3 " ++ filepath }, []) := by
  unfold Sandbox.execute_file
  rw [h]

/-- C4 witness: an empty local filesystem and a concrete path. -/
theorem execute_file_missing_file_witness :
    (fun _ : String => (none : Option String)) "script.py" = none
    ∧ Sandbox.execute_file envOk (fun _ => none) cfgStd
        SandboxState.unconnected "script.py" none none none
      = (SandboxState.unconnected, Except.ok
          { stdout := "", stderr := "File not found: " ++ "script.py",
            exit_code := 1, execution_time := 0, timeout_occurred := false,
            container_id := "", command := "python3 " ++ "script.py" },
         []) :=
  ⟨rfl, execute_file_missing_file envOk (fun _ => none) cfgStd
    SandboxState.unconnected "script.py" none none none rfl⟩

/-- C7: `is_healthy` is a total boolean-valued operation (every exception
inside it is swallowed in the source; here it is a total function), and it
returns true exactly when the probe execution produced a result that is
successful and whose stdout contains the marker `health_check`; when
connect raised there is no probe result and it returns false. -/
theorem is_healthy_reports_probe (env : DockerEnv) (cfg : SandboxConfig)
    (s : SandboxState) :
    (Sandbox.is_healthy env cfg s).2.1
      = (match Sandbox.probe_result env cfg s with
         | none => false
         | some r => r.success && str_contains r.stdout "health_check") := by
  rcases hC : Sandbox.connect env cfg s with ⟨s1, e, evs⟩
  cases e with
  | some err => simp [Sandbox.is_healthy, Sandbox.probe_result, hC]
  | none =>
    rcases hE : Sandbox.execute env cfg s1 health_probe none none (some 5)
      with ⟨s2, res, evs2⟩
    cases res <;>
      simp [Sandbox.is_healthy, Sandbox.probe_result, hC, hE]

/-- C9: connect is not atomic on failure — when the docker client is
acquired but resolving the container fails, the session keeps the client
handle (the state is not rolled back to unconnected) while the container
stays unresolved and the error is raised; a subsequent connect attempt
keeps that client and issues only the container lookup, not a new client
acquisition. -/
theorem connect_keeps_client_on_failure (env : DockerEnv)
    (cfg : SandboxConfig) (c : Client)
    (henv : env.from_env = Except.ok c)
    (hfail : (env.containers_get c cfg.container).fails = true) :
    (Sandbox.connect env cfg SandboxState.unconnected).1.client = some c
    ∧ (Sandbox.connect env cfg SandboxState.unconnected).1.container = none
    ∧ (Sandbox.connect env cfg SandboxState.unconnected).2.1 ≠ none
    ∧ (Sandbox.connect env cfg SandboxState.unconnected).2.2
        = [RuntimeEvent.fromEnvCall,
           RuntimeEvent.getContainerCall cfg.container]
    ∧ (Sandbox.connect env cfg
        (Sandbox.connect env cfg SandboxState.unconnected).1).1.client
        = some c
    ∧ (Sandbox.connect env cfg
        (Sandbox.connect env cfg SandboxState.unconnected).1).2.2
        = [RuntimeEvent.getContainerCall cfg.container] := by
  cases hg : env.containers_get c cfg.container with
  | found ct => simp [GetContainerOutcome.fails, hg] at hfail
  | notFound =>
    refine ⟨?_, ?_, ?_, ?_, ?_, ?_⟩ <;>
      simp [Sandbox.connect, Sandbox.resolve_container,
        SandboxState.unconnected, henv, hg]
  | apiError msg =>
    refine ⟨?_, ?_, ?_, ?_, ?_, ?_⟩ <;>
      simp [Sandbox.connect, Sandbox.resolve_container,
        SandboxState.unconnected, henv, hg]

/-- C9 witness: a concrete runtime where the client is acquired and the
container is missing. -/
theorem connect_keeps_client_on_failure_witness :
    envNoContainer.from_env = Except.ok 0
    ∧ (envNoContainer.containers_get 0 cfgStd.container).fails = true
    ∧ (Sandbox.connect envNoContainer cfgStd
        SandboxState.unconnected).1.client = some 0
    ∧ (Sandbox.connect envNoContainer cfgStd
        SandboxState.unconnected).1.container = none
    ∧ (Sandbox.connect envNoContainer cfgStd
        SandboxState.unconnected).2.1 ≠ none
    ∧ (Sandbox.connect envNoContainer cfgStd
        SandboxState.unconnected).2.2
        = [RuntimeEvent.fromEnvCall,
           RuntimeEvent.getContainerCall cfgStd.container]
    ∧ (Sandbox.connect envNoContainer cfgStd
        (Sandbox.connect envNoContainer cfgStd
          SandboxState.unconnected).1).1.client = some 0
    ∧ (Sandbox.connect envNoContainer cfgStd
        (Sandbox.connect envNoContainer cfgStd
          SandboxState.unconnected).1).2.2
        = [RuntimeEvent.getContainerCall cfgStd.container] := by
  have h := connect_keeps_client_on_failure envNoContainer cfgStd 0 rfl rfl
  exact ⟨rfl, rfl, h.1, h.2.1, h.2.2.1, h.2.2.2.1, h.2.2.2.2.1,
    h.2.2.2.2.2⟩

end Solitary
